import Mathlib

/-!
Verification of the Cache-Refresh-SillyTavern extension's refresh scheduler.

The JavaScript sources keep the scheduler state in module-level variables
(`lastGenerationData`, `refreshTimer`, `refreshesLeft`, `refreshInProgress`,
`nextRefreshTime`).  We embed that state as the structure `Sys` below and
translate the operations of `src/index.js` (`stopRefreshCycle`,
`scheduleNextRefresh`, `startRefreshCycle`, `refreshCache`,
`captureGenerationData`, and the jQuery-init event registrations) as pure
state transformers that additionally emit the observable effects (outbound
requests, notifications) as a list of events.  Host timers (`setTimeout` /
`clearTimeout`) are modelled explicitly: `liveTimers` is the list of timers
currently pending in the host event loop, while `refreshTimer` is the id the
extension's `refreshTimer` variable holds (which can go stale after a timer
fires, exactly as a JavaScript timeout handle does).

The variant functions that the claims also cite are embedded separately:
`captureGenerationData003` and `chatChangedHandler003` from the
TempResponseLength variant (src/unnamed/part_003), and the payload clamp of
`index-browser.js`.
-/

/-- Extension settings (`defaultSettings` shape in `src/index.js`).
`maxRefreshes` and the live counter are `Int` because they are plain
JavaScript numbers fed through `parseInt`. -/
structure Settings where
  enabled : Bool
  refreshInterval : Nat
  maxRefreshes : Int
  minTokens : Nat
  showNotifications : Bool
deriving Repr, DecidableEq

/-- A pending host timeout: the handle returned by `setTimeout` together
with the delay it was armed for. -/
structure Timer where
  id : Nat
  delay : Nat
deriving Repr, DecidableEq

/-- The scheduler state of `src/index.js`.  `prompt` is
`lastGenerationData.prompt` (the captured chat snapshot, opaque here).
`openaiMaxTokens` is the host's `chatCompletionSettings.openai_max_tokens`:
`src/index.js` never touches it, and per the host transport contract
(spec section 6, and as the part_003 variant's `TempResponseLength`
manipulation confirms) it is the requested output size that
`sendGenerationRequest` uses for the outbound call. -/
structure Sys where
  settings : Settings
  mainApi : String
  prompt : Option Nat
  refreshTimer : Option Nat
  liveTimers : List Timer
  refreshesLeft : Int
  refreshInProgress : Bool
  nextRefreshTime : Option Nat
  now : Nat
  nextTimerId : Nat
  openaiMaxTokens : Nat
deriving Repr, DecidableEq

/-- Notification level of `showNotification` calls. -/
inductive Level where
  | success
  | error
deriving Repr, DecidableEq

/-- Observable effects: an outbound refresh request (the captured chat
snapshot it carries plus the requested output size the transport will use),
or a toast notification. -/
inductive Event where
  | request (chat : Nat) (outputSize : Nat)
  | notify (lvl : Level)
deriving Repr, DecidableEq

/-- `isChatCompletion` from `src/index.js`: only the OpenAI-format API is
supported. -/
def isChatCompletion (s : Sys) : Bool :=
  s.mainApi == "openai"

/-- `showNotification` from `src/index.js`: the toast is produced only when
`settings.showNotifications` is on. -/
def showNotification (st : Settings) (lvl : Level) : List Event :=
  if st.showNotifications = true then [Event.notify lvl] else []

/-- Host `clearTimeout`: removing a handle that already fired (or `null`)
is a no-op. -/
def clearTimeout (id : Option Nat) (ts : List Timer) : List Timer :=
  match id with
  | none => ts
  | some i => ts.filter (fun t => t.id != i)

/-- `stopRefreshCycle` from `src/index.js`: clear the pending timeout,
null the handle, reset `nextRefreshTime` and `refreshInProgress`. -/
def stopRefreshCycle (s : Sys) : Sys :=
  { s with
      liveTimers := clearTimeout s.refreshTimer s.liveTimers,
      refreshTimer := none,
      nextRefreshTime := none,
      refreshInProgress := false }

/-- `scheduleNextRefresh` from `src/index.js`: stop when disabled, out of
budget, or without a stored prompt; otherwise record the next fire time and
arm a fresh timeout for `refreshInterval`. -/
def scheduleNextRefresh (s : Sys) : Sys :=
  if s.settings.enabled = false ∨ s.refreshesLeft ≤ 0 ∨ s.prompt = none then
    stopRefreshCycle s
  else
    { s with
        nextRefreshTime := some (s.now + s.settings.refreshInterval),
        refreshTimer := some s.nextTimerId,
        liveTimers := ⟨s.nextTimerId, s.settings.refreshInterval⟩ :: s.liveTimers,
        nextTimerId := s.nextTimerId + 1 }

/-- `startRefreshCycle` from `src/index.js`: bail out silently without a
prompt or while disabled, bail out on an unsupported API, otherwise stop
any existing cycle, reset the budget and schedule. -/
def startRefreshCycle (s : Sys) : Sys :=
  if s.prompt = none ∨ s.settings.enabled = false then s
  else if isChatCompletion s = false then s
  else
    scheduleNextRefresh
      { stopRefreshCycle s with refreshesLeft := s.settings.maxRefreshes }

/-- The catch/finally tail of `refreshCache` in `src/index.js`, run once the
awaited request settles (`outcome` is whether `sendGenerationRequest`
succeeded): show the success or failure toast, clear `refreshInProgress`,
decrement `refreshesLeft`, and re-enter `scheduleNextRefresh`. -/
def refreshSettle (outcome : Bool) (s : Sys) : Sys × List Event :=
  let evs := showNotification s.settings (if outcome then Level.success else Level.error)
  let s1 := { s with refreshInProgress := false, refreshesLeft := s.refreshesLeft - 1 }
  (scheduleNextRefresh s1, evs)

/-- Result of the synchronous prefix of `refreshCache`: either the call
completed without suspending, or a request is now in flight. -/
inductive BeginResult where
  | done (s : Sys) (evs : List Event)
  | inflight (s : Sys) (evs : List Event)

/-- The synchronous prefix of `refreshCache` in `src/index.js`: return
immediately when no prompt is stored or a refresh is in progress; set
`refreshInProgress`; on an unsupported API throw before sending (the catch
and finally blocks then run synchronously); otherwise issue the outbound
request — `sendGenerationRequest('quiet', lastGenerationData)` — passing the
stored snapshot unchanged, so the requested output size is the host's
current `openai_max_tokens`. -/
def refreshBegin (s : Sys) : BeginResult :=
  if s.prompt = none ∨ s.refreshInProgress = true then .done s []
  else
    let s1 := { s with refreshInProgress := true }
    if isChatCompletion s1 = false then
      let r := refreshSettle false s1
      .done r.1 r.2
    else
      .inflight s1 [Event.request (s.prompt.getD 0) s.openaiMaxTokens]

/-- A whole `refreshCache` invocation with no interleaving while the request
is in flight: the synchronous prefix followed, if a request went out, by the
settle phase with the given outcome. -/
def refreshCacheStep (outcome : Bool) (s : Sys) : Sys × List Event :=
  match refreshBegin s with
  | .done s1 evs => (s1, evs)
  | .inflight s1 evs =>
      let r := refreshSettle outcome s1
      (r.1, evs ++ r.2)

/-- The host timer firing: if the handle held in `refreshTimer` is still
pending, it is consumed by the event loop and its callback `refreshCache`
runs (to completion, with the given request outcome). -/
def fireTimer (outcome : Bool) (s : Sys) : Sys × List Event :=
  match s.refreshTimer with
  | none => (s, [])
  | some i =>
      if s.liveTimers.any (fun t => t.id == i) then
        refreshCacheStep outcome { s with liveTimers := s.liveTimers.filter (fun t => t.id != i) }
      else (s, [])

/-- Fire the pending timer repeatedly, one list entry per fire, collecting
all emitted events. -/
def runFires : List Bool → Sys → Sys × List Event
  | [], s => (s, [])
  | o :: os, s =>
      let r1 := fireTimer o s
      let r2 := runFires os r1.1
      (r2.1, r1.2 ++ r2.2)

/-- Predicate selecting outbound request events. -/
def isRequest : Event → Bool
  | .request _ _ => true
  | .notify _ => false

/-- Number of outbound requests in an event trace. -/
def countRequests (evs : List Event) : Nat :=
  evs.countP isRequest

/-- Payload of a `CHAT_COMPLETION_PROMPT_READY` event: the chat snapshot and
the dry-run flag. -/
structure CaptureData where
  chat : Option Nat
  dryRun : Bool
deriving Repr, DecidableEq

/-- `captureGenerationData` from `src/index.js`: return while disabled, on a
non-chat-completion API, or for a dry run; otherwise store the chat
snapshot. -/
def captureGenerationData (d : CaptureData) (s : Sys) : Sys :=
  if s.settings.enabled = false then s
  else if isChatCompletion s = false then s
  else if d.dryRun = true then s
  else { s with prompt := d.chat }

/-- `captureGenerationData` from the part_003 variant: while disabled it
additionally clears any stored prompt; on a real capture it stores the
snapshot and then calls `stopRefreshCycle`. -/
def captureGenerationData003 (d : CaptureData) (s : Sys) : Sys :=
  if s.settings.enabled = false then { s with prompt := none }
  else if isChatCompletion s = false then s
  else if d.dryRun = true then s
  else stopRefreshCycle { s with prompt := d.chat }

/-- The `MESSAGE_RECEIVED` handler registered in the jQuery init of
`src/index.js`: when enabled with a stored prompt, stop any existing cycle,
reset the budget, and schedule. -/
def messageReceivedHandler (s : Sys) : Sys :=
  if s.settings.enabled = true ∧ s.prompt ≠ none then
    scheduleNextRefresh
      { stopRefreshCycle s with refreshesLeft := s.settings.maxRefreshes }
  else s

/-- The `CHAT_CHANGED` handler of the part_003 variant: stop the cycle,
clear the stored prompt, zero the budget. -/
def chatChangedHandler003 (s : Sys) : Sys :=
  { stopRefreshCycle s with prompt := none, refreshesLeft := 0 }

/-- Host events the extension can subscribe to. -/
inductive HostEvent where
  | promptReady (d : CaptureData)
  | messageReceived
  | chatChanged

/-- Event dispatch for `src/index.js`: its jQuery init registers listeners
only for `CHAT_COMPLETION_PROMPT_READY` and `MESSAGE_RECEIVED`; no
`CHAT_CHANGED` listener is registered, so that signal leaves the extension
state untouched. -/
def dispatchMain : HostEvent → Sys → Sys
  | .promptReady d, s => captureGenerationData d s
  | .messageReceived, s => messageReceivedHandler s
  | .chatChanged, s => s

/-- Event dispatch for the part_003 variant, which additionally registers a
`CHAT_CHANGED` listener. -/
def dispatch003 : HostEvent → Sys → Sys
  | .promptReady d, s => captureGenerationData003 d s
  | .messageReceived, s => messageReceivedHandler s
  | .chatChanged, s => chatChangedHandler003 s

/-- A generation payload of `index-browser.js`: only the fields relevant to
the claims (`max_tokens` may be absent, and absent or zero is falsy). -/
structure BrowserPayload where
  max_tokens : Option Nat
  cache_refresh : Bool
deriving Repr, DecidableEq

/-- The payload transformation inside `refreshCache` of `index-browser.js`:
clamp a truthy `max_tokens` that exceeds `minTokens` down to `minTokens`,
and tag the clone as a cache refresh. -/
def browserRefreshPayload (minTokens : Nat) (d : BrowserPayload) : BrowserPayload :=
  let d1 :=
    match d.max_tokens with
    | some m => if m ≠ 0 ∧ minTokens < m then { d with max_tokens := some minTokens } else d
    | none => d
  { d1 with cache_refresh := true }

/-- The extension's `refreshTimer` variable is consistent with the host
event loop: at most one timeout is pending, and a pending one is the one
the variable holds. -/
def timersConsistent (s : Sys) : Bool :=
  match s.liveTimers with
  | [] => true
  | [t] => s.refreshTimer == some t.id
  | _ => false

/-- A consistent timer table has at most one pending timeout. -/
lemma timersConsistent_length {s : Sys} (h : timersConsistent s = true) :
    s.liveTimers.length ≤ 1 := by
  rcases hl : s.liveTimers with _ | ⟨t, _ | ⟨u, l⟩⟩
  · simp
  · simp
  · unfold timersConsistent at h
    rw [hl] at h
    simp at h

/-- Under consistency, clearing the held handle empties the timer table. -/
lemma clearTimeout_of_consistent {s : Sys} (h : timersConsistent s = true) :
    clearTimeout s.refreshTimer s.liveTimers = [] := by
  unfold timersConsistent at h
  rcases hl : s.liveTimers with _ | ⟨t, _ | ⟨u, l⟩⟩
  · cases s.refreshTimer <;> simp [clearTimeout]
  · rw [hl] at h
    have ht : s.refreshTimer = some t.id := by
      cases hr : s.refreshTimer with
      | none => rw [hr] at h; simp at h
      | some i =>
          rw [hr] at h
          simp only [beq_iff_eq, Option.some.injEq] at h
          rw [h]
    simp [clearTimeout, ht, hl]
  · rw [hl] at h
    simp at h

/-- `stopRefreshCycle` empties the timer table when state was consistent. -/
lemma stop_liveTimers {s : Sys} (h : timersConsistent s = true) :
    (stopRefreshCycle s).liveTimers = [] :=
  clearTimeout_of_consistent h

/-- A fire with no held handle does nothing. -/
lemma fireTimer_none {s : Sys} (o : Bool) (h : s.refreshTimer = none) :
    fireTimer o s = (s, []) := by
  unfold fireTimer
  rw [h]

/-- Claim C7: `stopRefreshCycle` is callable from every state, cancels any
pending timer (so that no request can fire from it), clears
`refreshInProgress` and `nextRefreshTime`, and is idempotent. -/
theorem stop_idempotent_cancels (s : Sys) (o : Bool)
    (hcons : timersConsistent s = true) :
    stopRefreshCycle (stopRefreshCycle s) = stopRefreshCycle s ∧
    (stopRefreshCycle s).refreshInProgress = false ∧
    (stopRefreshCycle s).nextRefreshTime = none ∧
    (stopRefreshCycle s).liveTimers = [] ∧
    fireTimer o (stopRefreshCycle s) = (stopRefreshCycle s, []) :=
  ⟨rfl, rfl, rfl, stop_liveTimers hcons, fireTimer_none o rfl⟩

/-- A concrete mid-cycle state: enabled, a captured prompt, one armed
timer, full budget. -/
def wState : Sys :=
  { settings :=
      { enabled := true, refreshInterval := 1000, maxRefreshes := 3,
        minTokens := 1, showNotifications := true },
    mainApi := "openai", prompt := some 7, refreshTimer := some 0,
    liveTimers := [⟨0, 1000⟩], refreshesLeft := 3, refreshInProgress := false,
    nextRefreshTime := some 1000, now := 0, nextTimerId := 1,
    openaiMaxTokens := 100 }

theorem stop_idempotent_cancels_witness :
    timersConsistent wState = true ∧
    (stopRefreshCycle (stopRefreshCycle wState) = stopRefreshCycle wState ∧
     (stopRefreshCycle wState).refreshInProgress = false ∧
     (stopRefreshCycle wState).nextRefreshTime = none ∧
     (stopRefreshCycle wState).liveTimers = [] ∧
     fireTimer true (stopRefreshCycle wState) = (stopRefreshCycle wState, [])) :=
  ⟨by decide, stop_idempotent_cancels wState true (by decide)⟩

/-- Claim C10: when `refreshCache` runs with no stored prompt or with a
refresh already in flight, it returns immediately: the state is unchanged
and no request, notification, or timer operation happens. -/
theorem refresh_skip_frame (s : Sys) (o : Bool)
    (h : s.prompt = none ∨ s.refreshInProgress = true) :
    refreshCacheStep o s = (s, []) := by
  unfold refreshCacheStep refreshBegin
  rw [if_pos h]

/-- A concrete state with a refresh already in flight. -/
def wBusyState : Sys := { wState with refreshInProgress := true }

theorem refresh_skip_frame_witness :
    (wBusyState.prompt = none ∨ wBusyState.refreshInProgress = true) ∧
    refreshCacheStep false wBusyState = (wBusyState, []) :=
  ⟨by decide, refresh_skip_frame wBusyState false (by decide)⟩

/-- Claim C1: evaluated at a concrete captured prompt and configuration
(`minTokens = 1`, host response length 100), the timer fire of
`src/index.js` issues its request with the stored snapshot unchanged and a
requested output size of 100, which is not at most `minTokens`: the main
variant never forces the requested output size down to `minTokens` — the
clamp exists only in the browser variant's payload transformation. -/
theorem main_refresh_ignores_min_tokens :
    (fireTimer true wState).2 =
      [Event.request 7 100, Event.notify Level.success] ∧
    wState.settings.minTokens = 1 ∧
    ¬(100 ≤ wState.settings.minTokens) ∧
    browserRefreshPayload 1 ⟨some 100, false⟩ = ⟨some 1, true⟩ := by
  decide

/-- `scheduleNextRefresh` on a disabled, exhausted or prompt-less state is
exactly `stopRefreshCycle`. -/
lemma scheduleNextRefresh_stop {s : Sys}
    (h : s.settings.enabled = false ∨ s.refreshesLeft ≤ 0 ∨ s.prompt = none) :
    scheduleNextRefresh s = stopRefreshCycle s := by
  unfold scheduleNextRefresh
  rw [if_pos h]

/-- `scheduleNextRefresh` on an enabled state with budget and prompt arms a
fresh timer for `refreshInterval`. -/
lemma scheduleNextRefresh_armed {s : Sys}
    (hen : s.settings.enabled = true) (hk : 0 < s.refreshesLeft)
    (hpr : s.prompt ≠ none) :
    scheduleNextRefresh s =
      { s with
          nextRefreshTime := some (s.now + s.settings.refreshInterval),
          refreshTimer := some s.nextTimerId,
          liveTimers := ⟨s.nextTimerId, s.settings.refreshInterval⟩ :: s.liveTimers,
          nextTimerId := s.nextTimerId + 1 } := by
  unfold scheduleNextRefresh
  rw [if_neg]
  push_neg
  exact ⟨by simp [hen], by omega, hpr⟩

/-- `startRefreshCycle` under all preconditions: the previous cycle is torn
down and exactly one fresh timer is armed with a full budget. -/
lemma startRefreshCycle_armed {s : Sys}
    (hpr : s.prompt ≠ none) (hen : s.settings.enabled = true)
    (hapi : isChatCompletion s = true) (hM : 0 < s.settings.maxRefreshes)
    (hcons : timersConsistent s = true) :
    startRefreshCycle s =
      { s with
          refreshesLeft := s.settings.maxRefreshes,
          refreshInProgress := false,
          nextRefreshTime := some (s.now + s.settings.refreshInterval),
          refreshTimer := some s.nextTimerId,
          liveTimers := [⟨s.nextTimerId, s.settings.refreshInterval⟩],
          nextTimerId := s.nextTimerId + 1 } := by
  have h0 : clearTimeout s.refreshTimer s.liveTimers = [] :=
    clearTimeout_of_consistent hcons
  unfold startRefreshCycle
  rw [if_neg (by push_neg; exact ⟨hpr, by simp [hen]⟩), if_neg (by simp [hapi])]
  rw [scheduleNextRefresh_armed (by exact hen) (by exact hM) (by exact hpr)]
  simp [stopRefreshCycle, h0]

/-- `startRefreshCycle` keeps the timer table consistent with the held
handle. -/
lemma start_preserves_consistent {s : Sys} (hcons : timersConsistent s = true) :
    timersConsistent (startRefreshCycle s) = true := by
  by_cases h1 : s.prompt = none ∨ s.settings.enabled = false
  · unfold startRefreshCycle
    rw [if_pos h1]
    exact hcons
  · by_cases h2 : isChatCompletion s = false
    · unfold startRefreshCycle
      rw [if_neg h1, if_pos h2]
      exact hcons
    · have hpr : s.prompt ≠ none := (not_or.mp h1).1
      have hen : s.settings.enabled = true := by
        have := (not_or.mp h1).2
        simpa using this
      have hapi : isChatCompletion s = true := by simpa using h2
      have h0 : clearTimeout s.refreshTimer s.liveTimers = [] :=
        clearTimeout_of_consistent hcons
      rcases le_or_lt s.settings.maxRefreshes 0 with hM | hM
      · unfold startRefreshCycle
        rw [if_neg h1, if_neg (by simp [hapi])]
        rw [scheduleNextRefresh_stop (Or.inr (Or.inl hM))]
        simp [stopRefreshCycle, timersConsistent, h0]
        rfl
      · rw [startRefreshCycle_armed hpr hen hapi hM hcons]
        simp [timersConsistent]

/-- Claim C2: for every consistent state, `startRefreshCycle` first tears
down any existing cycle, so after one or two consecutive starts at most one
timer is pending. -/
theorem start_single_timer (s : Sys) (hcons : timersConsistent s = true) :
    timersConsistent (startRefreshCycle s) = true ∧
    (startRefreshCycle s).liveTimers.length ≤ 1 ∧
    (startRefreshCycle (startRefreshCycle s)).liveTimers.length ≤ 1 := by
  have h1 := start_preserves_consistent hcons
  have h2 := start_preserves_consistent h1
  exact ⟨h1, timersConsistent_length h1, timersConsistent_length h2⟩

theorem start_single_timer_witness :
    timersConsistent wState = true ∧
    (timersConsistent (startRefreshCycle wState) = true ∧
     (startRefreshCycle wState).liveTimers.length ≤ 1 ∧
     (startRefreshCycle (startRefreshCycle wState)).liveTimers.length ≤ 1) :=
  ⟨by decide, start_single_timer wState (by decide)⟩

/-- Claim C8: `startRefreshCycle` is silently ignored (state entirely
unchanged) while disabled, without a stored prompt, or on an unsupported
API mode; when all preconditions hold, the budget is reset to
`maxRefreshes` and a single timer is armed for `refreshInterval`. -/
theorem start_preconditions (s : Sys) (hcons : timersConsistent s = true) :
    ((s.prompt = none ∨ s.settings.enabled = false ∨ isChatCompletion s = false) →
      startRefreshCycle s = s) ∧
    (s.prompt ≠ none → s.settings.enabled = true → isChatCompletion s = true →
      0 < s.settings.maxRefreshes →
      (startRefreshCycle s).refreshesLeft = s.settings.maxRefreshes ∧
      (startRefreshCycle s).nextRefreshTime =
        some (s.now + s.settings.refreshInterval) ∧
      (startRefreshCycle s).liveTimers =
        [⟨s.nextTimerId, s.settings.refreshInterval⟩] ∧
      (startRefreshCycle s).refreshTimer = some s.nextTimerId) := by
  constructor
  · intro h
    rcases h with h | h | h
    · unfold startRefreshCycle
      rw [if_pos (Or.inl h)]
    · unfold startRefreshCycle
      rw [if_pos (Or.inr h)]
    · by_cases h1 : s.prompt = none ∨ s.settings.enabled = false
      · unfold startRefreshCycle
        rw [if_pos h1]
      · unfold startRefreshCycle
        rw [if_neg h1, if_pos h]
  · intro hpr hen hapi hM
    rw [startRefreshCycle_armed hpr hen hapi hM hcons]
    exact ⟨rfl, rfl, rfl, rfl⟩

theorem start_preconditions_witness :
    timersConsistent wState = true ∧
    (((wState.prompt = none ∨ wState.settings.enabled = false ∨
        isChatCompletion wState = false) →
       startRefreshCycle wState = wState) ∧
     (wState.prompt ≠ none → wState.settings.enabled = true →
      isChatCompletion wState = true → 0 < wState.settings.maxRefreshes →
      (startRefreshCycle wState).refreshesLeft = wState.settings.maxRefreshes ∧
      (startRefreshCycle wState).nextRefreshTime =
        some (wState.now + wState.settings.refreshInterval) ∧
      (startRefreshCycle wState).liveTimers =
        [⟨wState.nextTimerId, wState.settings.refreshInterval⟩] ∧
      (startRefreshCycle wState).refreshTimer = some wState.nextTimerId)) :=
  ⟨by decide, start_preconditions wState (by decide)⟩

/-- Firing the held, still-pending timer consumes it and runs
`refreshCache`. -/
lemma fireTimer_armed {s : Sys} {t : Timer} (o : Bool)
    (hlt : s.liveTimers = [t]) (hrt : s.refreshTimer = some t.id) :
    fireTimer o s = refreshCacheStep o { s with liveTimers := [] } := by
  unfold fireTimer
  rw [hrt]
  simp [hlt]

/-- The synchronous prefix of `refreshCache`, when a prompt is stored, no
refresh is in flight and the API is supported, issues the request with the
stored snapshot unchanged. -/
lemma refreshBegin_run {s : Sys}
    (hpr : s.prompt ≠ none) (hnp : s.refreshInProgress = false)
    (hapi : isChatCompletion s = true) :
    refreshBegin s =
      BeginResult.inflight { s with refreshInProgress := true }
        [Event.request (s.prompt.getD 0) s.openaiMaxTokens] := by
  have hapi2 : s.mainApi = "openai" := by simpa [isChatCompletion] using hapi
  unfold refreshBegin
  rw [if_neg (by push_neg; exact ⟨hpr, by simp [hnp]⟩)]
  rw [if_neg (by simp [isChatCompletion, hapi2])]

/-- `scheduleNextRefresh` never changes the budget counter. -/
lemma scheduleNextRefresh_refreshesLeft (s : Sys) :
    (scheduleNextRefresh s).refreshesLeft = s.refreshesLeft := by
  unfold scheduleNextRefresh stopRefreshCycle
  split <;> rfl

/-- `scheduleNextRefresh` never changes the stored prompt. -/
lemma scheduleNextRefresh_prompt (s : Sys) :
    (scheduleNextRefresh s).prompt = s.prompt := by
  unfold scheduleNextRefresh stopRefreshCycle
  split <;> rfl

/-- `scheduleNextRefresh` never changes the settings. -/
lemma scheduleNextRefresh_settings (s : Sys) :
    (scheduleNextRefresh s).settings = s.settings := by
  unfold scheduleNextRefresh stopRefreshCycle
  split <;> rfl

/-- A full `refreshCache` run under its positive guards: one request goes
out, the toast is shown, the budget drops by one, and control re-enters
`scheduleNextRefresh`. -/
lemma refreshCacheStep_run {s : Sys} (o : Bool)
    (hpr : s.prompt ≠ none) (hnp : s.refreshInProgress = false)
    (hapi : isChatCompletion s = true) :
    refreshCacheStep o s =
      (scheduleNextRefresh
         { s with refreshInProgress := false,
                  refreshesLeft := s.refreshesLeft - 1 },
       Event.request (s.prompt.getD 0) s.openaiMaxTokens ::
         showNotification s.settings
           (if o then Level.success else Level.error)) := by
  unfold refreshCacheStep
  rw [refreshBegin_run hpr hnp hapi]
  simp [refreshSettle]

/-- Claim C4: a failing refresh attempt emits the failure notification,
decrements the budget exactly once (identically to a success), leaves the
prompt and settings intact, and — whenever budget remains — arms a new
timer for the fixed `refreshInterval`. -/
theorem failure_counts_and_rearms (s : Sys) (t : Timer)
    (hlt : s.liveTimers = [t]) (hrt : s.refreshTimer = some t.id)
    (hpr : s.prompt ≠ none) (hnp : s.refreshInProgress = false)
    (hen : s.settings.enabled = true) (hapi : isChatCompletion s = true)
    (hshow : s.settings.showNotifications = true) :
    (fireTimer false s).2 =
      [Event.request (s.prompt.getD 0) s.openaiMaxTokens,
       Event.notify Level.error] ∧
    (fireTimer false s).1.refreshesLeft = s.refreshesLeft - 1 ∧
    (fireTimer true s).1.refreshesLeft = s.refreshesLeft - 1 ∧
    (fireTimer false s).1.prompt = s.prompt ∧
    (fireTimer false s).1.settings = s.settings ∧
    (0 < s.refreshesLeft - 1 →
      (fireTimer false s).1.liveTimers =
        [⟨s.nextTimerId, s.settings.refreshInterval⟩] ∧
      (fireTimer false s).1.refreshTimer = some s.nextTimerId) := by
  have hrunF := refreshCacheStep_run (s := { s with liveTimers := [] }) false hpr hnp hapi
  have hrunT := refreshCacheStep_run (s := { s with liveTimers := [] }) true hpr hnp hapi
  rw [fireTimer_armed false hlt hrt, fireTimer_armed true hlt hrt, hrunF, hrunT]
  refine ⟨by simp [showNotification, hshow], ?_, ?_, ?_, ?_, ?_⟩
  · simp [scheduleNextRefresh_refreshesLeft]
  · simp [scheduleNextRefresh_refreshesLeft]
  · simp [scheduleNextRefresh_prompt]
  · simp [scheduleNextRefresh_settings]
  · intro hk
    have hk2 : ¬(s.refreshesLeft - 1 ≤ 0) := by omega
    have hen2 : ¬(s.settings.enabled = false) := by simp [hen]
    constructor <;> simp [scheduleNextRefresh, hk2, hen2, hpr]

theorem failure_counts_and_rearms_witness :
    (wState.liveTimers = [⟨0, 1000⟩] ∧ wState.refreshTimer = some 0 ∧
     wState.prompt ≠ none ∧ wState.refreshInProgress = false ∧
     wState.settings.enabled = true ∧ isChatCompletion wState = true ∧
     wState.settings.showNotifications = true) ∧
    ((fireTimer false wState).2 =
      [Event.request (wState.prompt.getD 0) wState.openaiMaxTokens,
       Event.notify Level.error] ∧
     (fireTimer false wState).1.refreshesLeft = wState.refreshesLeft - 1 ∧
     (fireTimer true wState).1.refreshesLeft = wState.refreshesLeft - 1 ∧
     (fireTimer false wState).1.prompt = wState.prompt ∧
     (fireTimer false wState).1.settings = wState.settings ∧
     (0 < wState.refreshesLeft - 1 →
       (fireTimer false wState).1.liveTimers =
         [⟨wState.nextTimerId, wState.settings.refreshInterval⟩] ∧
       (fireTimer false wState).1.refreshTimer = some wState.nextTimerId)) :=
  ⟨⟨by decide, by decide, by decide, by decide, by decide, by decide, by decide⟩,
   failure_counts_and_rearms wState ⟨0, 1000⟩ (by decide) (by decide) (by decide)
     (by decide) (by decide) (by decide) (by decide)⟩

/-- Claim C9: with a request in flight (entered through `refreshBegin`),
calling `stopRefreshCycle` does not terminate the cycle: once the request
settles, the finally block still decrements the budget and
`scheduleNextRefresh` arms a fresh timer because the extension is still
enabled, the prompt is still stored, and budget remains. -/
theorem stop_inflight_resumes (s : Sys) (o : Bool)
    (hpr : s.prompt ≠ none) (hnp : s.refreshInProgress = false)
    (hen : s.settings.enabled = true) (hapi : isChatCompletion s = true)
    (hk : 1 < s.refreshesLeft) (hcons : timersConsistent s = true) :
    refreshBegin s =
      BeginResult.inflight { s with refreshInProgress := true }
        [Event.request (s.prompt.getD 0) s.openaiMaxTokens] ∧
    (refreshSettle o
        (stopRefreshCycle { s with refreshInProgress := true })).1.refreshesLeft
      = s.refreshesLeft - 1 ∧
    (refreshSettle o
        (stopRefreshCycle { s with refreshInProgress := true })).1.liveTimers
      = [⟨s.nextTimerId, s.settings.refreshInterval⟩] ∧
    (refreshSettle o
        (stopRefreshCycle { s with refreshInProgress := true })).1.refreshTimer
      = some s.nextTimerId := by
  have h0 : clearTimeout s.refreshTimer s.liveTimers = [] :=
    clearTimeout_of_consistent hcons
  have hk2 : ¬(s.refreshesLeft - 1 ≤ 0) := by omega
  have hen2 : ¬(s.settings.enabled = false) := by simp [hen]
  refine ⟨refreshBegin_run hpr hnp hapi, ?_, ?_, ?_⟩ <;>
    simp [refreshSettle, stopRefreshCycle, scheduleNextRefresh, h0, hk2, hen2, hpr]

theorem stop_inflight_resumes_witness :
    (wState.prompt ≠ none ∧ wState.refreshInProgress = false ∧
     wState.settings.enabled = true ∧ isChatCompletion wState = true ∧
     1 < wState.refreshesLeft ∧ timersConsistent wState = true) ∧
    (refreshBegin wState =
      BeginResult.inflight { wState with refreshInProgress := true }
        [Event.request (wState.prompt.getD 0) wState.openaiMaxTokens] ∧
     (refreshSettle false
         (stopRefreshCycle { wState with refreshInProgress := true })).1.refreshesLeft
       = wState.refreshesLeft - 1 ∧
     (refreshSettle false
         (stopRefreshCycle { wState with refreshInProgress := true })).1.liveTimers
       = [⟨wState.nextTimerId, wState.settings.refreshInterval⟩] ∧
     (refreshSettle false
         (stopRefreshCycle { wState with refreshInProgress := true })).1.refreshTimer
       = some wState.nextTimerId) :=
  ⟨⟨by decide, by decide, by decide, by decide, by decide, by decide⟩,
   stop_inflight_resumes wState false (by decide) (by decide) (by decide)
     (by decide) (by decide) (by decide)⟩

/-- A concrete disabled state still holding a previously captured prompt. -/
def wDisabledState : Sys :=
  { wState with
      settings := { wState.settings with enabled := false },
      prompt := some 3 }

/-- Claim C5 counterexample: in the part_003 variant, `captureGenerationData`
invoked while the extension is disabled does not leave the stored prompt
unchanged — a stored prompt is cleared. -/
theorem capture_disabled_cex :
    captureGenerationData003 ⟨some 9, false⟩ wDisabledState ≠ wDisabledState ∧
    (captureGenerationData003 ⟨some 9, false⟩ wDisabledState).prompt = none ∧
    wDisabledState.prompt = some 3 := by
  decide

/-- Claim C5 amended: `captureGenerationData` while disabled leaves the
whole state — CycleState and stored prompt — unchanged in `src/index.js`;
in the part_003 variant it leaves the CycleState unchanged but clears the
stored prompt. -/
theorem capture_disabled_frame (s : Sys) (d : CaptureData)
    (h : s.settings.enabled = false) :
    captureGenerationData d s = s ∧
    captureGenerationData003 d s = { s with prompt := none } := by
  constructor
  · unfold captureGenerationData
    rw [if_pos h]
  · unfold captureGenerationData003
    rw [if_pos h]

theorem capture_disabled_frame_witness :
    wDisabledState.settings.enabled = false ∧
    (captureGenerationData ⟨some 9, false⟩ wDisabledState = wDisabledState ∧
     captureGenerationData003 ⟨some 9, false⟩ wDisabledState =
       { wDisabledState with prompt := none }) :=
  ⟨by decide, capture_disabled_frame wDisabledState ⟨some 9, false⟩ (by decide)⟩

/-- Claim C6 counterexample: `src/index.js` registers no `CHAT_CHANGED`
listener, so at a concrete mid-cycle state the chat-changed signal leaves
the stored prompt in place and the timer pending — it does not clear or
cancel anything. -/
theorem chat_changed_cex :
    dispatchMain HostEvent.chatChanged wState = wState ∧
    wState.prompt = some 7 ∧
    wState.liveTimers ≠ [] := by
  decide

/-- Claim C6 amended: in the part_003 variant the `CHAT_CHANGED` handler
clears the stored prompt, cancels any pending timer, zeroes the budget, and
refreshing cannot resume (no timer can fire and a bare start is ignored)
until a new capture and start; in `src/index.js` the signal leaves the
scheduler state entirely unchanged. -/
theorem chat_changed_variants (s : Sys) (hcons : timersConsistent s = true) :
    dispatchMain HostEvent.chatChanged s = s ∧
    (chatChangedHandler003 s).prompt = none ∧
    (chatChangedHandler003 s).liveTimers = [] ∧
    (chatChangedHandler003 s).refreshTimer = none ∧
    (chatChangedHandler003 s).refreshesLeft = 0 ∧
    (∀ o, fireTimer o (chatChangedHandler003 s) =
      (chatChangedHandler003 s, [])) ∧
    startRefreshCycle (chatChangedHandler003 s) = chatChangedHandler003 s := by
  refine ⟨rfl, rfl, ?_, rfl, rfl, ?_, ?_⟩
  · exact clearTimeout_of_consistent hcons
  · intro o
    exact fireTimer_none o rfl
  · unfold startRefreshCycle
    rw [if_pos (Or.inl (show (chatChangedHandler003 s).prompt = none from rfl))]

theorem chat_changed_variants_witness :
    timersConsistent wState = true ∧
    (dispatchMain HostEvent.chatChanged wState = wState ∧
     (chatChangedHandler003 wState).prompt = none ∧
     (chatChangedHandler003 wState).liveTimers = [] ∧
     (chatChangedHandler003 wState).refreshTimer = none ∧
     (chatChangedHandler003 wState).refreshesLeft = 0 ∧
     (∀ o, fireTimer o (chatChangedHandler003 wState) =
       (chatChangedHandler003 wState, [])) ∧
     startRefreshCycle (chatChangedHandler003 wState) =
       chatChangedHandler003 wState) :=
  ⟨by decide, chat_changed_variants wState (by decide)⟩

/-- Unfolding lemma: running zero fires. -/
lemma runFires_nil (s : Sys) : runFires [] s = (s, []) := rfl

/-- Unfolding lemma: running one fire then the rest. -/
lemma runFires_cons (o : Bool) (os : List Bool) (s : Sys) :
    runFires (o :: os) s =
      ((runFires os (fireTimer o s).1).1,
       (fireTimer o s).2 ++ (runFires os (fireTimer o s).1).2) := rfl

/-- Counting requests through a cons of a request event. -/
lemma countRequests_cons_request (c n : Nat) (l : List Event) :
    countRequests (Event.request c n :: l) = countRequests l + 1 := by
  simp [countRequests, isRequest]

/-- Notifications are not requests. -/
lemma countRequests_showNotification (st : Settings) (lvl : Level) :
    countRequests (showNotification st lvl) = 0 := by
  unfold showNotification
  split <;> simp [countRequests, isRequest]

/-- Counting requests distributes over append. -/
lemma countRequests_append (a b : List Event) :
    countRequests (a ++ b) = countRequests a + countRequests b := by
  simp [countRequests, List.countP_append]

/-- A state in the middle of a refresh cycle: enabled, supported API, a
stored prompt, no refresh in flight, budget `k`, and exactly one pending
timer matching the held handle. -/
def midCycle (k : Nat) (s : Sys) : Prop :=
  s.settings.enabled = true ∧ isChatCompletion s = true ∧ s.prompt ≠ none ∧
  s.refreshInProgress = false ∧ s.refreshesLeft = (k : Int) ∧
  ∃ t, s.liveTimers = [t] ∧ s.refreshTimer = some t.id

/-- One timer fire from a mid-cycle state with budget `k + 1`: exactly one
request goes out; with budget left the state is mid-cycle at `k`, otherwise
the scheduler is fully stopped. -/
lemma fireTimer_midCycle (k : Nat) (s : Sys) (o : Bool)
    (h : midCycle (k + 1) s) :
    countRequests (fireTimer o s).2 = 1 ∧
    (0 < k → midCycle k (fireTimer o s).1) ∧
    (k = 0 →
      (fireTimer o s).1.liveTimers = [] ∧
      (fireTimer o s).1.refreshTimer = none ∧
      (fireTimer o s).1.refreshesLeft = 0) := by
  obtain ⟨hen, hapi, hpr, hnp, hk, t, hlt, hrt⟩ := h
  have hapi2 : s.mainApi = "openai" := by simpa [isChatCompletion] using hapi
  have hrun := refreshCacheStep_run (s := { s with liveTimers := [] }) o hpr hnp hapi
  rw [fireTimer_armed o hlt hrt, hrun]
  refine ⟨?_, ?_, ?_⟩
  · rw [countRequests_cons_request, countRequests_showNotification]
  · intro hkpos
    have hkX : ¬(s.refreshesLeft - 1 ≤ 0) := by omega
    have hen2 : ¬(s.settings.enabled = false) := by simp [hen]
    refine ⟨?_, ?_, ?_, ?_, ?_,
      ⟨⟨s.nextTimerId, s.settings.refreshInterval⟩, ?_, ?_⟩⟩
    · simp [scheduleNextRefresh, hkX, hen2, hpr, hen]
    · simp [scheduleNextRefresh, hkX, hen2, hpr, isChatCompletion, hapi2]
    · simp [scheduleNextRefresh, hkX, hen2, hpr]
    · simp [scheduleNextRefresh, hkX, hen2, hpr]
    · simp [scheduleNextRefresh, hkX, hen2, hpr]
      omega
    · simp [scheduleNextRefresh, hkX, hen2, hpr]
    · simp [scheduleNextRefresh, hkX, hen2, hpr]
  · intro hk0
    have hk1 : s.refreshesLeft - 1 ≤ 0 := by omega
    refine ⟨?_, ?_, ?_⟩
    · simp [scheduleNextRefresh, stopRefreshCycle, clearTimeout, hk1, hrt]
    · simp [scheduleNextRefresh, stopRefreshCycle, hk1]
    · simp [scheduleNextRefresh, stopRefreshCycle, hk1]
      omega

/-- Firing a mid-cycle state once per remaining budget unit issues exactly
one request per fire and ends with the scheduler stopped. -/
lemma runFires_midCycle (os : List Bool) :
    ∀ s : Sys, os ≠ [] → midCycle os.length s →
      countRequests (runFires os s).2 = os.length ∧
      (runFires os s).1.liveTimers = [] ∧
      (runFires os s).1.refreshTimer = none ∧
      (runFires os s).1.refreshesLeft = 0 := by
  induction os with
  | nil =>
      intro s hne _
      exact absurd rfl hne
  | cons o os ih =>
      intro s _ hmid
      have hstep := fireTimer_midCycle os.length s o (by exact hmid)
      rw [runFires_cons]
      by_cases hos : os = []
      · subst hos
        have hend := hstep.2.2 rfl
        rw [runFires_nil]
        refine ⟨?_, hend.1, hend.2.1, hend.2.2⟩
        simp [countRequests_append, hstep.1]
      · have hpos : 0 < os.length := List.length_pos.mpr hos
        have hmid2 := hstep.2.1 hpos
        have hrest := ih (fireTimer o s).1 hos hmid2
        refine ⟨?_, hrest.2.1, hrest.2.2.1, hrest.2.2.2⟩
        rw [countRequests_append, hstep.1, hrest.1, List.length_cons]
        omega

/-- Claim C3: a cycle started with budget `maxRefreshes = M`, with the
timer allowed to fire `M` times (each attempt succeeding or failing as
listed), issues exactly `M` outbound requests; afterwards the scheduler is
stopped — no timer pending, budget zero — and a further timer fire issues
nothing. -/
theorem refresh_budget_exact (s : Sys) (M : Nat) (os : List Bool)
    (hM : 0 < M) (hmax : s.settings.maxRefreshes = (M : Int))
    (hen : s.settings.enabled = true) (hapi : isChatCompletion s = true)
    (hpr : s.prompt ≠ none) (hcons : timersConsistent s = true)
    (hlen : os.length = M) :
    countRequests (runFires os (startRefreshCycle s)).2 = M ∧
    (runFires os (startRefreshCycle s)).1.liveTimers = [] ∧
    (runFires os (startRefreshCycle s)).1.refreshTimer = none ∧
    (runFires os (startRefreshCycle s)).1.refreshesLeft = 0 ∧
    (∀ o, fireTimer o (runFires os (startRefreshCycle s)).1 =
      ((runFires os (startRefreshCycle s)).1, [])) := by
  have hM2 : 0 < s.settings.maxRefreshes := by
    rw [hmax]
    exact_mod_cast hM
  rw [startRefreshCycle_armed hpr hen hapi hM2 hcons]
  have hmid : midCycle os.length
      { s with
          refreshesLeft := s.settings.maxRefreshes,
          refreshInProgress := false,
          nextRefreshTime := some (s.now + s.settings.refreshInterval),
          refreshTimer := some s.nextTimerId,
          liveTimers := [⟨s.nextTimerId, s.settings.refreshInterval⟩],
          nextTimerId := s.nextTimerId + 1 } := by
    refine ⟨hen, hapi, hpr, rfl, ?_,
      ⟨⟨s.nextTimerId, s.settings.refreshInterval⟩, rfl, rfl⟩⟩
    show s.settings.maxRefreshes = ((os.length : Nat) : Int)
    rw [hmax, hlen]
  have hne : os ≠ [] := by
    intro hnil
    rw [hnil] at hlen
    simp at hlen
    omega
  have hrun := runFires_midCycle os _ hne hmid
  refine ⟨by rw [hrun.1, hlen], hrun.2.1, hrun.2.2.1, hrun.2.2.2, ?_⟩
  intro o
  exact fireTimer_none o hrun.2.2.1

theorem refresh_budget_exact_witness :
    (0 < 3 ∧ wState.settings.maxRefreshes = ((3 : Nat) : Int) ∧
     wState.settings.enabled = true ∧ isChatCompletion wState = true ∧
     wState.prompt ≠ none ∧ timersConsistent wState = true ∧
     ([true, false, true] : List Bool).length = 3) ∧
    (countRequests (runFires [true, false, true] (startRefreshCycle wState)).2 = 3 ∧
     (runFires [true, false, true] (startRefreshCycle wState)).1.liveTimers = [] ∧
     (runFires [true, false, true] (startRefreshCycle wState)).1.refreshTimer = none ∧
     (runFires [true, false, true] (startRefreshCycle wState)).1.refreshesLeft = 0 ∧
     (∀ o, fireTimer o (runFires [true, false, true] (startRefreshCycle wState)).1 =
       ((runFires [true, false, true] (startRefreshCycle wState)).1, []))) :=
  ⟨⟨by decide, by decide, by decide, by decide, by decide, by decide, by decide⟩,
   refresh_budget_exact wState 3 [true, false, true] (by decide) (by decide)
     (by decide) (by decide) (by decide) (by decide) (by decide)⟩
